import Mathlib

/-!
Verification development for the `blue-green-manual` repository
(`src/green/app.py`, a single-file Flask application).

The source program:

* imports Flask and builds `app = Flask(__name__)` (line 3);
* registers one route with `@app.route("/")` on the view function
  `hello_blue`, which returns the constant string
  `<h1 style='color:blue'>Hello, green!</h1>` (lines 5-7);
* under the `if __name__ == "__main__"` guard, calls
  `app.run(host='0.0.0.0', port=5000)` (lines 9-10).

The embedding below models the application's data (requests, responses,
route rules, the app object) and the hosting framework's documented
dispatch defaults that the spec relies on: a route registered without an
explicit `methods` argument accepts GET, gets HEAD added implicitly
(because GET is present) and OPTIONS added implicitly; OPTIONS is
answered automatically without invoking the view; an unknown path gets
404 and a known path with a disallowed method gets 405; the response
body of a HEAD request is stripped when written to the wire.
-/

/-- HTTP methods relevant to the dispatch model. -/
inductive Method where
  | GET
  | HEAD
  | POST
  | PUT
  | DELETE
  | OPTIONS
  | PATCH
  deriving DecidableEq

/-- Observable side effects a view function could perform.  The source's
view performs none; the type exists so that "no side effects" is a
provable statement rather than a typing accident. -/
inductive Effect where
  | log (msg : String)
  | stateWrite (key : String)
  | io (what : String)
  deriving DecidableEq

/-- An HTTP response: status code, content type, body. -/
structure Response where
  status : Nat
  contentType : String
  body : String
  deriving DecidableEq

/-- An inbound HTTP request.  Query string, headers and body are carried
so that theorems can quantify over them and show they are ignored. -/
structure Request where
  method : Method
  path : String
  query : String
  headers : List (String × String)
  body : String

/-- The literal body returned by the view function (src/green/app.py line 7). -/
def helloBody : String := "<h1 style='color:blue'>Hello, green!</h1>"

/-- The response Flask builds from a plain-string return value: status
200 with the framework's default content type. -/
def fixedResponse : Response :=
  { status := 200, contentType := "text/html; charset=utf-8", body := helloBody }

/-- The view function `hello_blue` (src/green/app.py lines 6-7).  It
ignores the request, cannot raise, performs no effects, and returns the
constant string, which Flask wraps into a 200 response. -/
def hello_blue : Request → Except String (Response × List Effect) :=
  fun _ => Except.ok (fixedResponse, [])

/-- A route rule as Flask's router stores it: a path, the set of allowed
methods, whether the automatic OPTIONS response is provided, and the
view function. -/
structure Rule where
  path : String
  methods : List Method
  provideAutomaticOptions : Bool
  handler : Request → Except String (Response × List Effect)

/-- Flask's implicit method completion for a rule: HEAD is added when
GET is allowed, and OPTIONS is always added. -/
def addImplicitMethods (ms : List Method) : List Method :=
  let ms1 := if ms.contains Method.GET && !ms.contains Method.HEAD
             then ms ++ [Method.HEAD] else ms
  if !ms1.contains Method.OPTIONS then ms1 ++ [Method.OPTIONS] else ms1

/-- The single rule produced by `@app.route("/")` (src/green/app.py
line 5): no `methods` argument means GET, completed implicitly. -/
def rootRule : Rule :=
  { path := "/"
    methods := addImplicitMethods [Method.GET]
    provideAutomaticOptions := true
    handler := hello_blue }

/-- The application object: its import name and its route table. -/
structure App where
  name : String
  routes : List Rule

/-- Evaluating the module top level up to (and excluding) the main
guard: `app = Flask(__name__)` plus the one decorated route
registration (src/green/app.py lines 3-7). -/
def buildApp (name : String) : App :=
  { name := name, routes := [rootRule] }

/-- Result of dispatching one request: the wire response, whether the
registered view function was invoked, and the effects it performed. -/
structure DispatchResult where
  response : Response
  handlerInvoked : Bool
  effects : List Effect

/-- The hosting framework's dispatch, as the spec defers to it: match
the path against the route table; unknown path gives 404; a disallowed
method on a known path gives 405; an allowed OPTIONS is answered
automatically without invoking the view; otherwise the view runs (a
raising view would give 500) and a HEAD response's body is stripped on
the wire. -/
def dispatch (a : App) (req : Request) : DispatchResult :=
  match a.routes.find? (fun r => r.path == req.path) with
  | none =>
      { response := { status := 404, contentType := "text/html; charset=utf-8", body := "Not Found" }
        handlerInvoked := false
        effects := [] }
  | some r =>
      if r.methods.contains req.method then
        if r.provideAutomaticOptions && req.method == Method.OPTIONS then
          { response := { status := 200, contentType := "text/html; charset=utf-8", body := "" }
            handlerInvoked := false
            effects := [] }
        else
          match r.handler req with
          | Except.ok (resp, effs) =>
              { response := if req.method == Method.HEAD then { resp with body := "" } else resp
                handlerInvoked := true
                effects := effs }
          | Except.error _ =>
              { response := { status := 500, contentType := "text/html; charset=utf-8", body := "Internal Server Error" }
                handlerInvoked := true
                effects := [] }
      else
        { response := { status := 405, contentType := "text/html; charset=utf-8", body := "Method Not Allowed" }
          handlerInvoked := false
          effects := [] }

/-- Dispatch with explicit state passing: the app object is the only
server state, and serving a request leaves it unchanged (the source has
no mutation anywhere in the handler or the dispatch path). -/
def dispatchSt (a : App) (req : Request) : DispatchResult × App :=
  (dispatch a req, a)

/-- Serve a sequence of requests, threading the server state. -/
def serveList (a : App) : List Request → List Response × App
  | [] => ([], a)
  | r :: rs =>
      ((dispatchSt a r).1.response :: (serveList (dispatchSt a r).2 rs).1,
       (serveList (dispatchSt a r).2 rs).2)

/-- The status code dispatch produces for a request to path `/`, as a
function of the method only. -/
def rootMethodStatus : Method → Nat
  | Method.GET => 200
  | Method.HEAD => 200
  | Method.OPTIONS => 200
  | _ => 405

/-- Helper: on path `/` the response status depends only on the method. -/
theorem dispatch_root_status (name q b : String) (hs : List (String × String)) (m : Method) :
    (dispatch (buildApp name) { method := m, path := "/", query := q, headers := hs, body := b }).response.status
      = rootMethodStatus m := by
  cases m <;> rfl

/-- Helper: on path `/` the view function is invoked exactly for GET and HEAD. -/
theorem dispatch_root_invoked (name q b : String) (hs : List (String × String)) (m : Method) :
    (dispatch (buildApp name) { method := m, path := "/", query := q, headers := hs, body := b }).handlerInvoked
      = (m == Method.GET || m == Method.HEAD) := by
  cases m <;> rfl

/-- C1: every well-formed GET request to `/` — whatever its query
string, headers or body — gets status exactly 200 and exactly the
literal body `<h1 style='color:blue'>Hello, green!</h1>`. -/
theorem C1_fixed_response (name q b : String) (hs : List (String × String)) :
    (dispatch (buildApp name) { method := Method.GET, path := "/", query := q, headers := hs, body := b }).response.status = 200 ∧
    (dispatch (buildApp name) { method := Method.GET, path := "/", query := q, headers := hs, body := b }).response.body
      = "<h1 style='color:blue'>Hello, green!</h1>" :=
  ⟨rfl, rfl⟩

/-- Server lifecycle phases: there is no graceful-shutdown state in the
source. -/
inductive ServerPhase where
  | Stopped
  | Listening
  deriving DecidableEq

/-- The bind failure carries the target address, for the diagnostic. -/
structure BindError where
  host : String
  port : Nat
  deriving DecidableEq

/-- The operating-system environment, abstracted to whether a given
host/port pair can be bound. -/
structure OSEnv where
  canBind : String → Nat → Bool

/-- The host/port pair hard-coded in the `app.run` call
(src/green/app.py line 10). -/
structure RunConfig where
  host : String
  port : Nat
  deriving DecidableEq

/-- src/green/app.py line 10: `app.run(host='0.0.0.0', port=5000)`. -/
def mainRunConfig : RunConfig := { host := "0.0.0.0", port := 5000 }

/-- Modelled from the spec: `start(host, port)` (the framework side of
`app.run`, which is not in src/) binds the listening socket once; it
succeeds into the `Listening` phase or fails with a `BindError` when the
environment refuses the bind (port in use, permission denied). -/
def start (host : String) (port : Nat) (env : OSEnv) : Except BindError ServerPhase :=
  if env.canBind host port then Except.ok ServerPhase.Listening
  else Except.error { host := host, port := port }

/-- Diagnostic message produced on a failed bind. -/
def bindDiagnostic (e : BindError) : String :=
  "could not bind " ++ e.host ++ ":" ++ toString e.port

/-- Outcome of running the main block: exit code, final phase, optional
diagnostic, and the list of bind attempts actually made. -/
structure ProcessResult where
  exitCode : Nat
  phase : ServerPhase
  diagnostic : Option String
  bindAttempts : List (String × Nat)
  deriving DecidableEq

/-- Modelled from the spec: the `__main__` block calls `app.run` exactly
once with the fixed host/port — there is no retry and no fallback port
in the source — and a bind failure is fatal: non-zero exit, a
diagnostic, and the server never reaches `Listening`. -/
def runMain (env : OSEnv) : ProcessResult :=
  match start mainRunConfig.host mainRunConfig.port env with
  | Except.ok ph =>
      { exitCode := 0, phase := ph, diagnostic := none
        bindAttempts := [(mainRunConfig.host, mainRunConfig.port)] }
  | Except.error e =>
      { exitCode := 1, phase := ServerPhase.Stopped, diagnostic := some (bindDiagnostic e)
        bindAttempts := [(mainRunConfig.host, mainRunConfig.port)] }

/-- Evaluating the whole module under a given `__name__`: the app object
is always built (route registered), and the server is run only under
the `if __name__ == "__main__"` guard (src/green/app.py lines 9-10). -/
def moduleEval (name : String) (env : OSEnv) : App × Option ProcessResult :=
  (buildApp name, if name == "__main__" then some (runMain env) else none)

/-- Helper: serving the same request n times yields n copies of the same
response and leaves the server state unchanged. -/
theorem serveList_replicate (a : App) (req : Request) (n : Nat) :
    serveList a (List.replicate n req) = (List.replicate n (dispatch a req).response, a) := by
  induction n with
  | zero => rfl
  | succ k ih => simp [List.replicate_succ, serveList, dispatchSt, ih]

/-- Helper: serving any sequence of requests leaves the server state
unchanged. -/
theorem serveList_state (a : App) (rs : List Request) : (serveList a rs).2 = a := by
  induction rs with
  | nil => rfl
  | cons r rs ih => simpa [serveList, dispatchSt] using ih

/-- C2: when the environment refuses the bind, the process exits with a
non-zero status and a diagnostic, never reaches `Listening`, and makes
exactly one bind attempt — no retry, no fallback port. -/
theorem C2_bind_failure (env : OSEnv) (h : env.canBind "0.0.0.0" 5000 = false) :
    (runMain env).exitCode ≠ 0 ∧
    (runMain env).phase ≠ ServerPhase.Listening ∧
    (runMain env).diagnostic.isSome = true ∧
    (runMain env).bindAttempts = [("0.0.0.0", 5000)] := by
  simp [runMain, start, mainRunConfig, h]

/-- An environment in which no bind can succeed. -/
def deadEnv : OSEnv := { canBind := fun _ _ => false }

/-- C2 witness: the bind-failure theorem applied to a concrete
environment that refuses every bind. -/
theorem C2_bind_failure_witness :
    deadEnv.canBind "0.0.0.0" 5000 = false ∧
    ((runMain deadEnv).exitCode ≠ 0 ∧
     (runMain deadEnv).phase ≠ ServerPhase.Listening ∧
     (runMain deadEnv).diagnostic.isSome = true ∧
     (runMain deadEnv).bindAttempts = [("0.0.0.0", 5000)]) :=
  ⟨rfl, C2_bind_failure deadEnv rfl⟩

/-- A concrete HEAD request to the root path. -/
def headRootReq : Request :=
  { method := Method.HEAD, path := "/", query := "", headers := [], body := "" }

/-- C3 counterexample: a HEAD request to `/` has a method other than
GET, yet it does invoke the root view function, because the framework
registered HEAD implicitly alongside GET. -/
theorem C3_counterexample :
    headRootReq.path = "/" ∧ headRootReq.method ≠ Method.GET ∧
    (dispatch (buildApp "green.app") headRootReq).handlerInvoked = true :=
  ⟨rfl, by decide, rfl⟩

/-- C3 amended: for every request to `/` whose method is neither GET
nor HEAD, the root view function is never invoked; an OPTIONS request
gets the framework's automatic OPTIONS response (200) and any other
method gets the framework's method-not-allowed default (405). -/
theorem C3_amended_no_handler (name q b : String) (hs : List (String × String)) (m : Method)
    (hg : m ≠ Method.GET) (hh : m ≠ Method.HEAD) :
    (dispatch (buildApp name) { method := m, path := "/", query := q, headers := hs, body := b }).handlerInvoked = false ∧
    (m = Method.OPTIONS →
      (dispatch (buildApp name) { method := m, path := "/", query := q, headers := hs, body := b }).response.status = 200) ∧
    (m ≠ Method.OPTIONS →
      (dispatch (buildApp name) { method := m, path := "/", query := q, headers := hs, body := b }).response.status = 405) := by
  rw [dispatch_root_invoked, dispatch_root_status]
  cases m <;> simp_all <;> decide

/-- C3 amended witness: the amended theorem applied to a concrete POST
request to `/`. -/
theorem C3_amended_no_handler_witness :
    (Method.POST ≠ Method.GET ∧ Method.POST ≠ Method.HEAD) ∧
    ((dispatch (buildApp "green.app") { method := Method.POST, path := "/", query := "", headers := [], body := "" }).handlerInvoked = false ∧
     (Method.POST = Method.OPTIONS →
       (dispatch (buildApp "green.app") { method := Method.POST, path := "/", query := "", headers := [], body := "" }).response.status = 200) ∧
     (Method.POST ≠ Method.OPTIONS →
       (dispatch (buildApp "green.app") { method := Method.POST, path := "/", query := "", headers := [], body := "" }).response.status = 405)) :=
  ⟨⟨by decide, by decide⟩,
   C3_amended_no_handler "green.app" "" "" [] Method.POST (by decide) (by decide)⟩

/-- C4: issuing the same GET request to `/` n times produces n
byte-identical copies of the fixed response, and the server state after
the n calls equals the initial state. -/
theorem C4_idempotent_stateless (name q b : String) (hs : List (String × String)) (n : Nat) :
    serveList (buildApp name)
        (List.replicate n { method := Method.GET, path := "/", query := q, headers := hs, body := b })
      = (List.replicate n fixedResponse, buildApp name) := by
  rw [serveList_replicate]
  rfl

/-- C5: exactly one rule in the route table matches `("/", GET)`; the
registration is created by module evaluation and no amount of request
serving changes the app object. -/
theorem C5_single_registration (name : String) (env : OSEnv) :
    ((buildApp name).routes.filter (fun r => r.path == "/" && r.methods.contains Method.GET)).length = 1 ∧
    (moduleEval name env).1 = buildApp name ∧
    (∀ rs, (serveList (buildApp name) rs).2 = buildApp name) :=
  ⟨rfl, rfl, fun rs => serveList_state (buildApp name) rs⟩

/-- C6: the view function performs no side effects on any request — its
effect list is empty — and dispatching any request leaves every part of
the server state unchanged; only the response is produced. -/
theorem C6_no_side_effects (name : String) (req : Request) :
    hello_blue req = Except.ok (fixedResponse, ([] : List Effect)) ∧
    (dispatchSt (buildApp name) req).2 = buildApp name :=
  ⟨rfl, rfl⟩

/-- C7: the view function cannot fail — it returns `ok` on every
request, so the error branch of dispatch is unreachable for this route —
and no request to `/` ever produces an application-level error
response. -/
theorem C7_handler_total (name q b : String) (hs : List (String × String)) (m : Method) :
    hello_blue { method := m, path := "/", query := q, headers := hs, body := b }
      = Except.ok (fixedResponse, ([] : List Effect)) ∧
    (dispatch (buildApp name) { method := m, path := "/", query := q, headers := hs, body := b }).response.status ≠ 500 := by
  refine ⟨rfl, ?_⟩
  rw [dispatch_root_status]
  cases m <;> decide

/-- C8: the source fixes the listen host at 0.0.0.0 and the port at
5000, and the start call always attempts to bind exactly that pair. -/
theorem C8_fixed_host_port (env : OSEnv) :
    mainRunConfig.host = "0.0.0.0" ∧ mainRunConfig.port = 5000 ∧
    (runMain env).bindAttempts = [("0.0.0.0", 5000)] := by
  refine ⟨rfl, rfl, ?_⟩
  unfold runMain
  split <;> rfl

/-- C9: the single registration for `/` allows exactly GET, HEAD and
OPTIONS (HEAD and OPTIONS added implicitly by the framework); a request
to `/` gets the method-not-allowed default iff its method is none of
those three, and a HEAD request is served with status 200 rather than
rejected. -/
theorem C9_implicit_head_options (name q b : String) (hs : List (String × String)) (m : Method) :
    rootRule.methods = [Method.GET, Method.HEAD, Method.OPTIONS] ∧
    ((dispatch (buildApp name) { method := m, path := "/", query := q, headers := hs, body := b }).response.status = 405 ↔
      (m ≠ Method.GET ∧ m ≠ Method.HEAD ∧ m ≠ Method.OPTIONS)) ∧
    (dispatch (buildApp name) { method := Method.HEAD, path := "/", query := q, headers := hs, body := b }).response.status = 200 := by
  refine ⟨rfl, ?_, rfl⟩
  rw [dispatch_root_status]
  cases m <;> decide

/-- C10: the server is run only under the `__main__` guard — evaluating
the module under any other name registers the single route on the app
object but starts no server and attempts no bind. -/
theorem C10_main_guard (name : String) (env : OSEnv) (h : name ≠ "__main__") :
    (moduleEval name env).2 = none ∧
    (moduleEval name env).1.routes = [rootRule] ∧
    ((moduleEval name env).2.isSome = (name == "__main__")) := by
  have hb : (name == "__main__") = false := beq_eq_false_iff_ne.mpr h
  simp [moduleEval, buildApp, hb]

/-- C10 witness: the guard theorem applied to the module imported under
the name "green.app". -/
theorem C10_main_guard_witness :
    ("green.app" ≠ "__main__") ∧
    ((moduleEval "green.app" deadEnv).2 = none ∧
     (moduleEval "green.app" deadEnv).1.routes = [rootRule] ∧
     ((moduleEval "green.app" deadEnv).2.isSome = ("green.app" == "__main__"))) :=
  ⟨by decide, C10_main_guard "green.app" deadEnv (by decide)⟩
